import Mathlib

/-!
Shallow embedding of the Sestra SDK (TypeScript) for verification.

The embedding translates `src/client.ts` (SestraClient: payment-gateway
REST client with one local session) and `src/wallet.ts` (SestraWallet:
Solana transfer-plus-memo transaction helper).

Modelling conventions:
* JavaScript timestamps are integers (milliseconds since epoch). A date
  string is modelled by its parse result `Option Int`: `none` stands for
  an unparseable string (e.g. the empty string), whose `Date` comparison
  is always false (NaN semantics).
* JavaScript string truthiness: a `string | undefined` value is truthy
  iff it is present and nonempty.
* The HTTP/network layer is an external collaborator; each operation
  takes the outcome the network would produce (`FetchOutcome`) as an
  explicit argument and returns, besides its result and the new client
  state, the list of HTTP calls it actually issued, so that
  "performs no network call" is an assertion about that list.
* Thrown `Error(message)` values are modelled as `Except String`.
-/

namespace Sestra

/-- Structure `Session` from `src/types.ts`: token, reference id, expiry
(parsed date: `none` = unparseable/empty string) and remaining calls.
`calls_remaining` is a JS number that the client decrements, so `Int`. -/
structure Session where
  token : String
  reference_id : String
  expires_at : Option Int
  calls_remaining : Int
deriving Repr, DecidableEq

/-- Structure `SestraConfig` after the constructor's
`{ ...DEFAULT_CONFIG, ...config }` merge: `baseUrl` has its default
`"https://api.sestralabs.xyz"` filled in and `sandbox` defaults to
`false`; `serviceBaseUrl` is declared in `src/types.ts`
("Provider's protected API URL (your service) — required for making
authenticated requests to protected endpoints") but has no default. -/
structure SestraConfig where
  baseUrl : String
  serviceBaseUrl : Option String
  sandbox : Bool
deriving Repr, DecidableEq

/-- The mutable fields of a `SestraClient` instance:
`config`, `sessionToken?`, `currentSession?`. -/
structure ClientState where
  config : SestraConfig
  sessionToken : Option String
  currentSession : Option Session
deriving Repr, DecidableEq

/-- JS truthiness of a `string | undefined` value. -/
def truthyStr : Option String → Bool
  | none => false
  | some s => !s.isEmpty

/-- Comparison `new Date(s) > new Date()` where `s` parsed to `e`:
false when the date is invalid (NaN comparison). -/
def dateAfterNow (e : Option Int) (now : Int) : Bool :=
  match e with
  | none => false
  | some t => now < t

/-- Method `hasActiveSession()` of `client.ts`: false without a session, else
`expiresAt > new Date() && calls_remaining > 0`. `now` is the ambient
clock value at the moment of the call. -/
def hasActiveSession (st : ClientState) (now : Int) : Bool :=
  match st.currentSession with
  | none => false
  | some s => dateAfterNow s.expires_at now && 0 < s.calls_remaining

/-- Method `setSession(session)` of `client.ts`: stores the session and its token. -/
def setSession (st : ClientState) (s : Session) : ClientState :=
  { st with sessionToken := some s.token, currentSession := some s }

/-- Method `clearSession()` of `client.ts`. -/
def clearSession (st : ClientState) : ClientState :=
  { st with sessionToken := none, currentSession := none }

end Sestra

namespace Sestra

/-- One HTTP call as issued by the private `fetch` adapter:
absolute URL, method, and headers (the adapter's JSON content type
merged with the caller-supplied headers). -/
structure HttpCall where
  url : String
  method : String
  headers : List (String × String)
deriving Repr, DecidableEq

/-- What the network/server does for one HTTP exchange, were it
performed: a 2xx response with JSON body `body`, a non-2xx response
whose JSON body carries optional `error` and `detail` fields, or a
transport-level exception with message `msg`. -/
inductive FetchOutcome (T : Type) where
  | ok (body : T)
  | httpError (errorField detailField : Option String)
  | netError (msg : String)
deriving Repr, DecidableEq

/-- Interface `ApiResponse<T>` from `src/types.ts`. -/
structure ApiResponse (T : Type) where
  data : Option T := none
  error : Option String := none
deriving Repr, DecidableEq

/-- Expression `errorData.error || errorData.detail || 'Request failed'`
(JS `||` skips empty strings). -/
def normalizeError (errorField detailField : Option String) : String :=
  if truthyStr errorField then errorField.getD ""
  else if truthyStr detailField then detailField.getD ""
  else "Request failed"

/-- Body of the private `fetch<T>` adapter in `client.ts`: non-2xx
responses and transport exceptions both become an `error`-only
`ApiResponse`; a 2xx response becomes a `data` response. -/
def clientFetchResult {T : Type} (outcome : FetchOutcome T) : ApiResponse T :=
  match outcome with
  | .ok body => { data := some body }
  | .httpError e d => { error := some (normalizeError e d) }
  | .netError msg => { error := some msg }

/-- The URL the private `fetch` adapter targets:
``const url = `${this.config.baseUrl}${endpoint}` ``. -/
def fetchUrl (cfg : SestraConfig) (endpoint : String) : String :=
  cfg.baseUrl ++ endpoint

/-- The `HttpCall` record of one invocation of the private `fetch`
adapter: the adapter always sends `Content-Type: application/json`
merged with the caller-supplied headers. -/
def mkHttpCall (cfg : SestraConfig) (endpoint method : String)
    (extraHeaders : List (String × String)) : HttpCall :=
  { url := fetchUrl cfg endpoint
    method := method
    headers := ("Content-Type", "application/json") :: extraHeaders }

/-- Union `PaymentStatus` from `src/types.ts`. -/
inductive PaymentStatus where
  | pending | active | expired | revoked | cancelled
deriving Repr, DecidableEq

/-- Interface `PaymentDetails` from `src/types.ts` (fields the client forwards). -/
structure PaymentDetails where
  recipient_address : String
  platform_address : String
  amount_lamports : Int
  amount_sol : Int
  reference : String
deriving Repr, DecidableEq

/-- Interface `CreatePaymentRequest` from `src/types.ts`
(`metadata` is an opaque record; modelled as an optional tag). -/
structure CreatePaymentRequest where
  policy_id : String
  metadata : Option String := none
deriving Repr, DecidableEq

/-- Interface `CreatePaymentResponse` from `src/types.ts`. -/
structure CreatePaymentResponse where
  success : Bool
  reference_id : String
  status : PaymentStatus
  payment_details : PaymentDetails
  activation_endpoint : String
deriving Repr, DecidableEq

/-- Interface `VerifyPaymentResponse` from `src/types.ts`
(`expires_at` as a parsed date). -/
structure VerifyPaymentResponse where
  success : Bool
  reference_id : String
  status : PaymentStatus
  token : String
  expires_at : Option Int
  calls_remaining : Int
deriving Repr, DecidableEq

/-- Interface `SimulatePaymentRequest` from `src/types.ts`. -/
structure SimulatePaymentRequest where
  success : Bool := true
deriving Repr, DecidableEq

/-- Interface `SimulatePaymentResponse` from `src/types.ts`: `token`,
`expires_at` and `calls_remaining` are optional. -/
structure SimulatePaymentResponse where
  success : Bool
  reference_id : String
  status : PaymentStatus
  is_sandbox : Bool
  token : Option String := none
  expires_at : Option Int := none
  calls_remaining : Option Int := none
  message : String
deriving Repr, DecidableEq

/-- Interface `PaymentStatusResponse` from `src/types.ts` (fields used here). -/
structure PaymentStatusResponse where
  reference_id : String
  status : PaymentStatus
  amount_lamports : Int
  calls_remaining : Option Int := none
deriving Repr, DecidableEq

/-- Interface `ListPaymentsOptions` from `src/types.ts`. -/
structure ListPaymentsOptions where
  status : Option PaymentStatus := none
  limit : Option Int := none
  offset : Option Int := none
deriving Repr, DecidableEq

-- ============================================
-- Client operations
-- ============================================

/-- The endpoint `createPayment` selects:
`this.config.sandbox ? '/api/v1/sandbox/payments' : '/api/v1/payments'`. -/
def createPaymentEndpoint (sandbox : Bool) : String :=
  if sandbox then "/api/v1/sandbox/payments" else "/api/v1/payments"

/-- Method `createPayment` of `client.ts`: POST to the sandbox-or-production
payments path, throw the normalized error when the adapter yields no
`data`, return the body otherwise. The state is untouched. -/
def createPayment (st : ClientState) (_params : CreatePaymentRequest)
    (outcome : FetchOutcome CreatePaymentResponse) :
    Except String CreatePaymentResponse × ClientState × List HttpCall :=
  let endpoint := createPaymentEndpoint st.config.sandbox
  let call := mkHttpCall st.config endpoint "POST" []
  let response := clientFetchResult outcome
  match response.data with
  | none => (.error (response.error.getD "Failed to create payment"), st, [call])
  | some data => (.ok data, st, [call])

/-- Method `verifyPayment` of `client.ts`: fails immediately in sandbox mode with
no network call; otherwise POSTs to the verify path, throws on a
`data`-less adapter result, and on success auto-sets the session from
the response before returning it. -/
def verifyPayment (st : ClientState) (referenceId : String) (_txHash : String)
    (outcome : FetchOutcome VerifyPaymentResponse) :
    Except String VerifyPaymentResponse × ClientState × List HttpCall :=
  if st.config.sandbox then
    (.error "Use simulatePayment() for sandbox mode", st, [])
  else
    let endpoint := "/api/v1/payments/" ++ referenceId ++ "/verify"
    let call := mkHttpCall st.config endpoint "POST" []
    let response := clientFetchResult outcome
    match response.data with
    | none => (.error (response.error.getD "Payment verification failed"), st, [call])
    | some data =>
      let st' := setSession st
        { token := data.token
          reference_id := data.reference_id
          expires_at := data.expires_at
          calls_remaining := data.calls_remaining }
      (.ok data, st', [call])

/-- Method `simulatePayment` of `client.ts`: fails immediately outside sandbox
mode with no network call; otherwise POSTs to the simulate path, throws
on a `data`-less adapter result, and auto-sets the session only when
`response.data.success && response.data.token` (JS truthiness: the token
must be present and nonempty); `expires_at || ''` keeps an absent expiry
unparseable and `calls_remaining || 0` defaults to zero. -/
def simulatePayment (st : ClientState) (referenceId : String)
    (options : SimulatePaymentRequest)
    (outcome : FetchOutcome SimulatePaymentResponse) :
    Except String SimulatePaymentResponse × ClientState × List HttpCall :=
  if !st.config.sandbox then
    (.error "simulatePayment() only works in sandbox mode. Set sandbox: true in config.",
     st, [])
  else
    let endpoint := "/api/v1/sandbox/payments/" ++ referenceId ++ "/simulate"
    let _ := options
    let call := mkHttpCall st.config endpoint "POST" []
    let response := clientFetchResult outcome
    match response.data with
    | none => (.error (response.error.getD "Payment simulation failed"), st, [call])
    | some data =>
      let st' :=
        if data.success && truthyStr data.token then
          setSession st
            { token := data.token.getD ""
              reference_id := data.reference_id
              expires_at := data.expires_at
              calls_remaining := data.calls_remaining.getD 0 }
        else st
      (.ok data, st', [call])

/-- The query string `listPayments` builds with `URLSearchParams`
(percent-encoding of values abstracted away). -/
def listQuery (options : ListPaymentsOptions) : String :=
  let parts :=
    (match options.status with
     | some .pending => ["status=pending"]
     | some .active => ["status=active"]
     | some .expired => ["status=expired"]
     | some .revoked => ["status=revoked"]
     | some .cancelled => ["status=cancelled"]
     | none => []) ++
    (match options.limit with
     | some l => ["limit=" ++ toString l]
     | none => []) ++
    (match options.offset with
     | some o => ["offset=" ++ toString o]
     | none => [])
  String.intercalate "&" parts

/-- Method `listPayments` of `client.ts`: GET on the sandbox-or-production list
path; `return response.data || []` — a `null` body or an error-shaped
adapter result both yield the empty list and nothing is thrown. The
`ok` body is `Option (List _)` because the server may answer 2xx with a
JSON `null`. -/
def listPayments (st : ClientState) (options : ListPaymentsOptions)
    (outcome : FetchOutcome (Option (List PaymentStatusResponse))) :
    List PaymentStatusResponse × ClientState × List HttpCall :=
  let endpoint :=
    (if st.config.sandbox then "/api/v1/sandbox/payments?" else "/api/v1/payments?")
      ++ listQuery options
  let call := mkHttpCall st.config endpoint "GET" []
  let response := clientFetchResult outcome
  match response.data with
  | some (some l) => (l, st, [call])
  | some none => ([], st, [call])
  | none => ([], st, [call])

/-- Method `request<T>` of `client.ts`: precondition 1 — `!this.sessionToken`
(falsy, so absent or empty) throws the no-session error with no network
call; precondition 2 — `!hasActiveSession()` throws the expired error
with no network call. Otherwise the call is forwarded with
`X-Session-Token` attached through the same private `fetch` adapter
(hence against `config.baseUrl`); a `data`-less adapter result throws
and leaves the session untouched; a `data` result decrements
`currentSession.calls_remaining` by one and returns the body. -/
def request {T : Type} (st : ClientState) (endpoint : String) (now : Int)
    (outcome : FetchOutcome T) :
    Except String T × ClientState × List HttpCall :=
  if !truthyStr st.sessionToken then
    (.error "No active session. Call verifyPayment() or simulatePayment() first.",
     st, [])
  else if !hasActiveSession st now then
    (.error "Session expired or no calls remaining.", st, [])
  else
    let call := mkHttpCall st.config endpoint "GET"
      [("X-Session-Token", st.sessionToken.getD "")]
    let response := clientFetchResult outcome
    match response.data with
    | none => (.error (response.error.getD "Request failed"), st, [call])
    | some data =>
      let st' := { st with
        currentSession := st.currentSession.map
          (fun s => { s with calls_remaining := s.calls_remaining - 1 }) }
      (.ok data, st', [call])

-- ============================================
-- Wallet (src/wallet.ts)
-- ============================================

/-- An `@solana/web3.js` public key, opaque to this SDK. -/
structure PubKey where
  key : String
deriving Repr, DecidableEq

/-- One instruction of a wallet-built transaction: the
`SystemProgram.transfer` value transfer or the `spl-memo`
`createMemoInstruction` memo (which is signed by the listed keys). -/
inductive Instruction where
  | transfer (fromPubkey toPubkey : PubKey) (lamports : Int)
  | memo (text : String) (signers : List PubKey)
deriving Repr, DecidableEq

/-- The fields of a `@solana/web3.js` `Transaction` the wallet sets. -/
structure SolTransaction where
  instructions : List Instruction
  recentBlockhash : Option String := none
  feePayer : Option PubKey := none
deriving Repr, DecidableEq

/-- Interface `PaymentParams` from `src/types.ts`. -/
structure PaymentParams where
  recipientAddress : String
  amountLamports : Int
  memo : String
deriving Repr, DecidableEq

/-- Interface `PaymentResult` from `src/types.ts`. -/
structure PaymentResult where
  success : Bool
  txHash : Option String := none
  error : Option String := none
deriving Repr, DecidableEq

/-- Method `createPaymentTransaction` of `wallet.ts`: adds the transfer
instruction (parsing the recipient with `new PublicKey(...)`, which
throws on a syntactically invalid address), then the memo instruction,
and only then queries the network for the latest blockhash and fills
`recentBlockhash` and `feePayer`. `parsePublicKey` is the external
library's address parser; `getLatestBlockhash` is the outcome the RPC
node would produce. The returned `Bool` records whether the blockhash
query was issued. -/
def createPaymentTransaction (parsePublicKey : String → Option PubKey)
    (getLatestBlockhash : Except String String)
    (payerPublicKey : PubKey) (params : PaymentParams) :
    Except String SolTransaction × Bool :=
  match parsePublicKey params.recipientAddress with
  | none => (.error "Invalid public key input", false)
  | some recipient =>
    let instructions :=
      [Instruction.transfer payerPublicKey recipient params.amountLamports,
       Instruction.memo params.memo [payerPublicKey]]
    match getLatestBlockhash with
    | .error e => (.error e, true)
    | .ok blockhash =>
      (.ok { instructions := instructions
             recentBlockhash := some blockhash
             feePayer := some payerPublicKey }, true)

/-- Method `createPaymentFromDetails` of `wallet.ts`: extracts recipient, amount
and reference-as-memo from the payment details and delegates. -/
def createPaymentFromDetails (parsePublicKey : String → Option PubKey)
    (getLatestBlockhash : Except String String)
    (payerPublicKey : PubKey) (paymentDetails : PaymentDetails) :
    Except String SolTransaction × Bool :=
  createPaymentTransaction parsePublicKey getLatestBlockhash payerPublicKey
    { recipientAddress := paymentDetails.recipient_address
      amountLamports := paymentDetails.amount_lamports
      memo := paymentDetails.reference }

/-- Method `sendPayment` of `wallet.ts`: builds the transaction, signs and
submits it via `sendAndConfirmTransaction` (outcome supplied by the
environment as `submit`), returns `{success: true, txHash}`; every
exception along the way is caught and becomes
`{success: false, error}`. -/
def sendPayment (parsePublicKey : String → Option PubKey)
    (getLatestBlockhash : Except String String)
    (submit : SolTransaction → Except String String)
    (keypairPublicKey : PubKey) (params : PaymentParams) : PaymentResult :=
  match (createPaymentTransaction parsePublicKey getLatestBlockhash
          keypairPublicKey params).1 with
  | .error e => { success := false, error := some e }
  | .ok transaction =>
    match submit transaction with
    | .error e => { success := false, error := some e }
    | .ok txHash => { success := true, txHash := some txHash }

/-- Confirmation status reported by `getSignatureStatus`. -/
inductive ConfirmationStatus where
  | processed | confirmed | finalized
deriving Repr, DecidableEq

/-- Test `status.value?.confirmationStatus === 'finalized' ||
status.value?.confirmationStatus === 'confirmed'`. -/
def isConfirmedStatus : Option ConfirmationStatus → Bool
  | some .finalized => true
  | some .confirmed => true
  | _ => false

/-- The poll loop of `waitForConfirmation`, by remaining iterations:
at iteration index `k` it polls `statuses k`; a confirmed/finalized
answer returns `true`, exhausting the budget returns `false`. -/
def waitLoop (statuses : Nat → Option ConfirmationStatus) :
    Nat → Nat → Bool
  | 0, _ => false
  | fuel + 1, k =>
    if isConfirmedStatus (statuses k) then true
    else waitLoop statuses fuel (k + 1)

/-- How many times the `while (Date.now() - start < timeout)` loop body
runs under the idealized clock in which the `k`-th poll happens at
elapsed time `1000·k` (each iteration sleeps exactly 1000 ms and the
poll itself is instantaneous): the iterations with `1000·k < timeout`,
i.e. `⌈timeout/1000⌉`. -/
def pollBudget (timeout : Nat) : Nat :=
  (timeout + 999) / 1000

/-- Method `waitForConfirmation(txHash, timeout = 30000)` of `wallet.ts`:
a bounded busy-poll over the signature-status source `statuses`
(the status the RPC node reports at the `k`-th poll). -/
def waitForConfirmation (statuses : Nat → Option ConfirmationStatus)
    (timeout : Nat := 30000) : Bool :=
  waitLoop statuses (pollBudget timeout) 0

-- ============================================
-- Auxiliary definitions for the statements
-- ============================================

/-- Predicate deciding that `pat` occurs as a contiguous substring of `s`. -/
def containsSubstring (s pat : String) : Bool :=
  s.toList.tails.any fun t => pat.toList.isPrefixOf t

/-- Repeated successful protected-resource calls: apply `request` with
a 2xx `body` response `k` times, threading the client state. -/
def requestSuccessIter (st : ClientState) (endpoint : String) (now : Int)
    (body : String) : Nat → ClientState
  | 0 => st
  | k + 1 =>
    requestSuccessIter ((request (T := String) st endpoint now (.ok body)).2.1)
      endpoint now body k

/-- A concrete configuration (the defaults) used to instantiate
universally quantified theorems. -/
def cfgDefault : SestraConfig :=
  { baseUrl := "https://api.sestralabs.xyz", serviceBaseUrl := none, sandbox := false }

/-- A concrete sandbox configuration. -/
def cfgSandbox : SestraConfig :=
  { baseUrl := "https://api.sestralabs.xyz", serviceBaseUrl := none, sandbox := true }

/-- A concrete configuration whose protected-service base URL differs
from the payment-gateway base URL (the setup of the repository's
"should use serviceBaseUrl when configured" unit test). -/
def cfgServiceSplit : SestraConfig :=
  { baseUrl := "https://api.sestralabs.xyz"
    serviceBaseUrl := some "https://api.myservice.com"
    sandbox := false }

/-- JS string truthiness for a present value. -/
theorem truthyStr_some_iff (t : String) : truthyStr (some t) = true ↔ t ≠ "" := by
  simp [truthyStr, Bool.eq_false_iff, String.isEmpty_iff]

-- ============================================
-- C2: hasActiveSession
-- ============================================

/-- C2: `hasActiveSession()` returns true iff a session is set, its
expiry is strictly in the future (its date string parses to a time
after `now`), and its `calls_remaining` is positive; in particular it
returns false when no session is set and false when either condition
fails. -/
theorem hasActiveSession_spec (st : ClientState) (now : Int) :
    (hasActiveSession st now = true ↔
      ∃ s, st.currentSession = some s ∧
        (∃ t, s.expires_at = some t ∧ now < t) ∧ 0 < s.calls_remaining)
    ∧ (st.currentSession = none → hasActiveSession st now = false) := by
  constructor
  · cases hst : st.currentSession with
    | none => simp [hasActiveSession, hst]
    | some s =>
      cases he : s.expires_at with
      | none => simp [hasActiveSession, hst, dateAfterNow, he]
      | some t => simp [hasActiveSession, hst, dateAfterNow, he]
  · intro h
    simp [hasActiveSession, h]

/-- Instantiation of `hasActiveSession_spec`: a stored session expiring
at time 1000000 with 3 remaining calls is active at time 0. -/
theorem hasActiveSession_spec_witness :
    hasActiveSession
      ⟨cfgDefault, some "tok", some ⟨"tok", "ref", some 1000000, 3⟩⟩ 0 = true :=
  (hasActiveSession_spec ⟨cfgDefault, some "tok", some ⟨"tok", "ref", some 1000000, 3⟩⟩ 0).1.2
    ⟨⟨"tok", "ref", some 1000000, 3⟩, rfl, ⟨1000000, rfl, by norm_num⟩, by norm_num⟩

-- ============================================
-- C4: sandbox-mode mismatch guards
-- ============================================

/-- C4: with `sandbox = true`, `verifyPayment` always fails with the
mode-mismatch error and issues no HTTP call, whatever the network would
have answered; with `sandbox = false`, `simulatePayment` always fails
with its mode-mismatch error and issues no HTTP call. -/
theorem sandbox_mode_mismatch (cfg : SestraConfig) (tok : Option String)
    (sess : Option Session) (ref tx : String) (opts : SimulatePaymentRequest)
    (vOut : FetchOutcome VerifyPaymentResponse)
    (sOut : FetchOutcome SimulatePaymentResponse) :
    (verifyPayment ⟨{ cfg with sandbox := true }, tok, sess⟩ ref tx vOut =
      (.error "Use simulatePayment() for sandbox mode",
       ⟨{ cfg with sandbox := true }, tok, sess⟩, []))
    ∧ (simulatePayment ⟨{ cfg with sandbox := false }, tok, sess⟩ ref opts sOut =
      (.error "simulatePayment() only works in sandbox mode. Set sandbox: true in config.",
       ⟨{ cfg with sandbox := false }, tok, sess⟩, [])) := by
  exact ⟨by simp [verifyPayment], by simp [simulatePayment]⟩

-- ============================================
-- C6: createPayment endpoint selection
-- ============================================

/-- C6: `createPayment` always issues exactly one HTTP call, whose path
is the deterministic function `createPaymentEndpoint` of the sandbox
flag, and that path contains the substring "sandbox" iff the client is
configured with `sandbox = true`. -/
theorem createPayment_sandbox_path (st : ClientState)
    (params : CreatePaymentRequest) (outcome : FetchOutcome CreatePaymentResponse) :
    ((createPayment st params outcome).2.2 =
      [mkHttpCall st.config (createPaymentEndpoint st.config.sandbox) "POST" []])
    ∧ (containsSubstring (createPaymentEndpoint st.config.sandbox) "sandbox"
        = st.config.sandbox) := by
  constructor
  · cases outcome <;> simp [createPayment, clientFetchResult]
  · cases h : st.config.sandbox <;> simp [createPaymentEndpoint] <;> decide

-- ============================================
-- C10: listPayments never raises
-- ============================================

/-- C10: `listPayments` is a total function into plain lists (nothing
is raised under any modelled server behavior): an error-shaped adapter
result — non-2xx response or transport exception — and a 2xx `null`
body all yield the empty list, and a 2xx list body is returned
unchanged; the client state is never touched. -/
theorem listPayments_total (st : ClientState) (opts : ListPaymentsOptions) :
    (∀ e d, (listPayments st opts (.httpError e d)).1 = [])
    ∧ (∀ m, (listPayments st opts (.netError m)).1 = [])
    ∧ ((listPayments st opts (.ok none)).1 = [])
    ∧ (∀ l, (listPayments st opts (.ok (some l))).1 = l)
    ∧ (∀ outcome, (listPayments st opts outcome).2.1 = st) := by
  refine ⟨fun e d => rfl, fun m => rfl, rfl, fun l => rfl, fun outcome => ?_⟩
  cases outcome with
  | ok b => cases b <;> rfl
  | httpError e d => rfl
  | netError m => rfl

/-- Instantiation of `listPayments_total`: a transport failure yields
the empty list. -/
theorem listPayments_total_witness :
    (listPayments ⟨cfgDefault, none, none⟩ {} (.netError "connection refused")).1 = [] :=
  (listPayments_total ⟨cfgDefault, none, none⟩ {}).2.1 "connection refused"

-- ============================================
-- C5: failed simulatePayment leaves the session untouched
-- ============================================

/-- C5: in sandbox mode, a `simulatePayment` call whose response
indicates failure or lacks a (nonempty) token — as well as any
error-shaped adapter result — leaves the whole client state, in
particular the previously stored session, exactly as it was; the state
changes only when the response body has `success = true` together with
a present, nonempty token. -/
theorem simulatePayment_frame (cfg : SestraConfig) (tok : Option String)
    (s0 : Session) (ref : String) (opts : SimulatePaymentRequest)
    (outcome : FetchOutcome SimulatePaymentResponse)
    (hsand : cfg.sandbox = true) :
    (∀ body, outcome = .ok body →
      body.success = false ∨ truthyStr body.token = false →
      (simulatePayment ⟨cfg, tok, some s0⟩ ref opts outcome).2.1
        = ⟨cfg, tok, some s0⟩)
    ∧ (∀ e d, (simulatePayment ⟨cfg, tok, some s0⟩ ref opts (.httpError e d)).2.1
        = ⟨cfg, tok, some s0⟩)
    ∧ (∀ m, (simulatePayment ⟨cfg, tok, some s0⟩ ref opts (.netError m)).2.1
        = ⟨cfg, tok, some s0⟩)
    ∧ ((simulatePayment ⟨cfg, tok, some s0⟩ ref opts outcome).2.1
          ≠ ⟨cfg, tok, some s0⟩ →
        ∃ body t, outcome = .ok body ∧ body.success = true
          ∧ body.token = some t ∧ t ≠ "") := by
  refine ⟨?_, ?_, ?_, ?_⟩
  · rintro body rfl hfail
    rcases hfail with h | h <;>
      simp [simulatePayment, hsand, clientFetchResult, h]
  · intro e d
    simp [simulatePayment, hsand, clientFetchResult]
  · intro m
    simp [simulatePayment, hsand, clientFetchResult]
  · intro hchanged
    cases outcome with
    | ok body =>
      cases hs : body.success with
      | false =>
        exfalso; apply hchanged
        simp [simulatePayment, hsand, clientFetchResult, hs]
      | true =>
        cases htk : body.token with
        | none =>
          exfalso; apply hchanged
          simp [simulatePayment, hsand, clientFetchResult, hs, htk, truthyStr]
        | some t =>
          by_cases hte : t = ""
          · exfalso; apply hchanged
            have htr : truthyStr (some t) = false := by rw [hte]; rfl
            simp [simulatePayment, hsand, clientFetchResult, hs, htk, htr]
          · exact ⟨body, t, rfl, hs, htk, hte⟩
    | httpError e d =>
      exfalso; apply hchanged
      simp [simulatePayment, hsand, clientFetchResult]
    | netError m =>
      exfalso; apply hchanged
      simp [simulatePayment, hsand, clientFetchResult]

/-- Instantiation of `simulatePayment_frame`: a failed simulation in
sandbox mode leaves a previously stored session in place. -/
theorem simulatePayment_frame_witness :
    (simulatePayment
      ⟨cfgSandbox, some "old", some ⟨"old", "ref-0", some 1000000, 7⟩⟩
      "ref-1" {} (.ok { success := false, reference_id := "ref-1",
                        status := .pending, is_sandbox := true,
                        message := "Simulated payment failure" })).2.1
    = ⟨cfgSandbox, some "old", some ⟨"old", "ref-0", some 1000000, 7⟩⟩ :=
  (simulatePayment_frame cfgSandbox (some "old") ⟨"old", "ref-0", some 1000000, 7⟩
      "ref-1" {} _ rfl).1 _ rfl (Or.inl rfl)

-- ============================================
-- C7: createPaymentTransaction structure and failure order
-- ============================================

/-- C7: for every address parser and every parameter set, if the
recipient address parses then `createPaymentTransaction` returns a
transaction whose instruction list is exactly the transfer from payer
to recipient for the given lamport amount followed by the memo
instruction carrying the literal memo string (signed by the payer);
if the recipient address does not parse, it fails and the network is
never queried for a blockhash. -/
theorem createPaymentTransaction_spec
    (parsePublicKey : String → Option PubKey)
    (getLatestBlockhash : Except String String)
    (payer : PubKey) (params : PaymentParams) :
    (∀ r bh, parsePublicKey params.recipientAddress = some r →
      getLatestBlockhash = .ok bh →
      createPaymentTransaction parsePublicKey getLatestBlockhash payer params =
        (.ok { instructions :=
                 [.transfer payer r params.amountLamports,
                  .memo params.memo [payer]]
               recentBlockhash := some bh
               feePayer := some payer }, true))
    ∧ (parsePublicKey params.recipientAddress = none →
      createPaymentTransaction parsePublicKey getLatestBlockhash payer params =
        (.error "Invalid public key input", false)) := by
  constructor
  · intro r bh hr hbh
    simp [createPaymentTransaction, hr, hbh]
  · intro hnone
    simp [createPaymentTransaction, hnone]

/-- Instantiation of `createPaymentTransaction_spec` with a parser that
rejects every address: the build fails without a blockhash query. -/
theorem createPaymentTransaction_spec_witness :
    createPaymentTransaction (fun _ => none) (.ok "hash-1") ⟨"payer"⟩
      { recipientAddress := "not-a-key", amountLamports := 5, memo := "m" } =
      (.error "Invalid public key input", false) :=
  (createPaymentTransaction_spec (fun _ => none) (.ok "hash-1") ⟨"payer"⟩
      { recipientAddress := "not-a-key", amountLamports := 5, memo := "m" }).2 rfl

-- ============================================
-- C8: sendPayment result shape
-- ============================================

/-- C8: `sendPayment` always returns a `PaymentResult` (it is a total
function: no exception escapes) in which exactly one of `txHash` and
`error` is populated — the success shape with a transaction identifier,
or the failure shape with a message — and every failure of the build
(address parse or blockhash query) or of the signed submission is
converted into the failure shape carrying that failure's message. -/
theorem sendPayment_result_shape
    (parsePublicKey : String → Option PubKey)
    (getLatestBlockhash : Except String String)
    (submit : SolTransaction → Except String String)
    (key : PubKey) (params : PaymentParams) :
    (((sendPayment parsePublicKey getLatestBlockhash submit key params).txHash.isSome
        ∧ (sendPayment parsePublicKey getLatestBlockhash submit key params).error = none
        ∧ (sendPayment parsePublicKey getLatestBlockhash submit key params).success = true)
      ∨ ((sendPayment parsePublicKey getLatestBlockhash submit key params).txHash = none
        ∧ (sendPayment parsePublicKey getLatestBlockhash submit key params).error.isSome
        ∧ (sendPayment parsePublicKey getLatestBlockhash submit key params).success = false))
    ∧ (parsePublicKey params.recipientAddress = none →
        sendPayment parsePublicKey getLatestBlockhash submit key params =
          { success := false, error := some "Invalid public key input" })
    ∧ (∀ e, sendPayment parsePublicKey (.error e) submit key params =
        if (parsePublicKey params.recipientAddress).isSome then
          { success := false, error := some e }
        else { success := false, error := some "Invalid public key input" })
    ∧ (∀ tx e, submit tx = .error e →
        (sendPayment parsePublicKey getLatestBlockhash (fun _ => .error e) key params).success
          = false) := by
  refine ⟨?_, ?_, ?_, ?_⟩
  · unfold sendPayment
    cases (createPaymentTransaction parsePublicKey getLatestBlockhash key params).1 with
    | error e => simp
    | ok tx =>
      rcases hsub : submit tx with e | h <;> simp [hsub]
  · intro hnone
    simp [sendPayment, createPaymentTransaction, hnone]
  · intro e
    cases hp : parsePublicKey params.recipientAddress with
    | none => simp [sendPayment, createPaymentTransaction, hp]
    | some r => simp [sendPayment, createPaymentTransaction, hp]
  · intro tx e _
    unfold sendPayment
    cases (createPaymentTransaction parsePublicKey getLatestBlockhash key params).1 with
    | error e' => simp
    | ok tx' => simp

/-- Instantiation of `sendPayment_result_shape`: a submission failure
is caught and returned as the failure shape. -/
theorem sendPayment_result_shape_witness :
    sendPayment (fun _ => none) (.ok "bh") (fun _ => .ok "sig") ⟨"payer"⟩
      { recipientAddress := "bad", amountLamports := 1, memo := "m" } =
      { success := false, error := some "Invalid public key input" } :=
  (sendPayment_result_shape (fun _ => none) (.ok "bh") (fun _ => .ok "sig") ⟨"payer"⟩
      { recipientAddress := "bad", amountLamports := 1, memo := "m" }).2.1 rfl

-- ============================================
-- C9: waitForConfirmation termination bounds
-- ============================================

/-- The poll loop answers `false` when no poll inside its budget
reports a confirmed/finalized status. -/
theorem waitLoop_false (statuses : Nat → Option ConfirmationStatus) :
    ∀ (fuel k0 : Nat),
      (∀ i, i < fuel → isConfirmedStatus (statuses (k0 + i)) = false) →
      waitLoop statuses fuel k0 = false := by
  intro fuel
  induction fuel with
  | zero => intro k0 _; rfl
  | succ n ih =>
    intro k0 hbad
    have h0 : isConfirmedStatus (statuses k0) = false := by
      simpa using hbad 0 (Nat.succ_pos n)
    rw [waitLoop, h0, if_neg Bool.false_ne_true]
    exact ih (k0 + 1) fun i hi => by
      have := hbad (i + 1) (Nat.succ_lt_succ hi)
      simpa [Nat.add_assoc, Nat.add_comm 1 i] using this

/-- The poll loop answers `true` when some poll inside its budget
reports a confirmed/finalized status. -/
theorem waitLoop_true (statuses : Nat → Option ConfirmationStatus) :
    ∀ (fuel k0 i : Nat), i < fuel →
      isConfirmedStatus (statuses (k0 + i)) = true →
      waitLoop statuses fuel k0 = true := by
  intro fuel
  induction fuel with
  | zero => intro k0 i hi; exact absurd hi (Nat.not_lt_zero i)
  | succ n ih =>
    intro k0 i hi hgood
    rw [waitLoop]
    cases hc : isConfirmedStatus (statuses k0) with
    | true => simp
    | false =>
      rw [if_neg Bool.false_ne_true]
      cases i with
      | zero => rw [Nat.add_zero] at hgood; rw [hgood] at hc; cases hc
      | succ j =>
        exact ih (k0 + 1) j (Nat.lt_of_succ_lt_succ hi)
          (by simpa [Nat.add_assoc, Nat.add_comm 1 j] using hgood)

/-- A poll index lies inside the loop's budget exactly when the
idealized clock has not yet exceeded the timeout at that poll. -/
theorem pollBudget_lt_iff (timeout k : Nat) :
    k < pollBudget timeout ↔ 1000 * k < timeout := by
  unfold pollBudget
  rw [Nat.lt_iff_add_one_le, Nat.le_div_iff_mul_le (by norm_num : (0:ℕ) < 1000)]
  omega

/-- C9: `waitForConfirmation` is a total (hence terminating) bounded
poll under the idealized clock where the `k`-th poll happens at elapsed
time `1000·k`: it returns `true` whenever some poll made before the
timeout elapses observes a confirmed or finalized status, and it
returns `false` — without raising — when no such poll does. -/
theorem waitForConfirmation_spec
    (statuses : Nat → Option ConfirmationStatus) (timeout : Nat) :
    ((∀ k, 1000 * k < timeout → isConfirmedStatus (statuses k) = false) →
      waitForConfirmation statuses timeout = false)
    ∧ (∀ k, 1000 * k < timeout → isConfirmedStatus (statuses k) = true →
      waitForConfirmation statuses timeout = true) := by
  constructor
  · intro hbad
    exact waitLoop_false statuses (pollBudget timeout) 0 fun i hi => by
      simpa using hbad i ((pollBudget_lt_iff timeout i).mp hi)
  · intro k hk hgood
    exact waitLoop_true statuses (pollBudget timeout) 0 k
      ((pollBudget_lt_iff timeout k).mpr hk) (by simpa using hgood)

/-- Instantiation of `waitForConfirmation_spec`: a status source that
never reports confirmation makes `waitForConfirmation` return `false`
at a 2000 ms timeout, and one that reports `confirmed` at the first
poll makes it return `true`. -/
theorem waitForConfirmation_spec_witness :
    waitForConfirmation (fun _ => some .processed) 2000 = false
    ∧ waitForConfirmation (fun _ => some .confirmed) 2000 = true :=
  ⟨(waitForConfirmation_spec (fun _ => some .processed) 2000).1 fun _ _ => rfl,
   (waitForConfirmation_spec (fun _ => some .confirmed) 2000).2 0 (by norm_num) rfl⟩

-- ============================================
-- C1: request decrements calls_remaining
-- ============================================

/-- A `request` whose preconditions hold and whose HTTP exchange
succeeds returns the body, decrements `calls_remaining` by one, and
issued exactly one call carrying the session token. -/
theorem request_ok_step (cfg : SestraConfig) (tok : String) (s : Session)
    (endpoint : String) (now : Int) (body : String)
    (htok : tok ≠ "") (hexp : dateAfterNow s.expires_at now = true)
    (hpos : 0 < s.calls_remaining) :
    request (T := String) ⟨cfg, some tok, some s⟩ endpoint now (.ok body) =
      (.ok body,
       ⟨cfg, some tok, some { s with calls_remaining := s.calls_remaining - 1 }⟩,
       [mkHttpCall cfg endpoint "GET" [("X-Session-Token", tok)]]) := by
  have ht : truthyStr (some tok) = true := (truthyStr_some_iff tok).mpr htok
  simp [request, hasActiveSession, hexp, hpos, ht, clientFetchResult]

/-- After `k ≤ calls_remaining` successful `request`s the stored
session's counter has gone down by exactly `k` and nothing else in the
client state has changed. -/
theorem requestSuccessIter_state (cfg : SestraConfig) (tok : String)
    (endpoint : String) (now : Int) (body : String) (htok : tok ≠ "") :
    ∀ (k : Nat) (s : Session), dateAfterNow s.expires_at now = true →
      (k : Int) ≤ s.calls_remaining →
      requestSuccessIter ⟨cfg, some tok, some s⟩ endpoint now body k =
        ⟨cfg, some tok, some { s with calls_remaining := s.calls_remaining - k }⟩ := by
  intro k
  induction k with
  | zero => intro s _ _; simp [requestSuccessIter]
  | succ j ih =>
    intro s hexp hle
    have hpos : 0 < s.calls_remaining := by omega
    rw [requestSuccessIter,
      request_ok_step cfg tok s endpoint now body htok hexp hpos]
    rw [ih { s with calls_remaining := s.calls_remaining - 1 } hexp (by push_cast; omega)]
    have harith : s.calls_remaining - 1 - (j : Int)
        = s.calls_remaining - ((j + 1 : Nat) : Int) := by push_cast; ring
    simp [harith]

/-- C1: a `request` whose HTTP exchange succeeds decrements the stored
session's `calls_remaining` by exactly one; a failed request — non-2xx
server response, transport failure, no remaining calls, or no session
token — leaves the client state (hence `calls_remaining`) unchanged,
so the decrement only happens after a successful response is observed;
and starting from `calls_remaining = n` with a future expiry, each of
the first `n` successive successful calls finds the session active and
succeeds, after which the session is no longer active. -/
theorem request_call_accounting (cfg : SestraConfig) (tok : String)
    (s : Session) (endpoint : String) (now : Int) (body : String)
    (htok : tok ≠ "") (hexp : dateAfterNow s.expires_at now = true) :
    (0 < s.calls_remaining →
      request (T := String) ⟨cfg, some tok, some s⟩ endpoint now (.ok body) =
        (.ok body,
         ⟨cfg, some tok, some { s with calls_remaining := s.calls_remaining - 1 }⟩,
         [mkHttpCall cfg endpoint "GET" [("X-Session-Token", tok)]]))
    ∧ (∀ e d, (request (T := String) ⟨cfg, some tok, some s⟩ endpoint now
        (.httpError e d)).2.1 = ⟨cfg, some tok, some s⟩)
    ∧ (∀ m, (request (T := String) ⟨cfg, some tok, some s⟩ endpoint now
        (.netError m)).2.1 = ⟨cfg, some tok, some s⟩)
    ∧ (∀ outcome : FetchOutcome String, s.calls_remaining ≤ 0 →
        request (T := String) ⟨cfg, some tok, some s⟩ endpoint now outcome =
          (.error "Session expired or no calls remaining.",
           ⟨cfg, some tok, some s⟩, []))
    ∧ (∀ (outcome : FetchOutcome String) (sess : Option Session),
        request (T := String) ⟨cfg, none, sess⟩ endpoint now outcome =
          (.error "No active session. Call verifyPayment() or simulatePayment() first.",
           ⟨cfg, none, sess⟩, []))
    ∧ (∀ n : Nat, s.calls_remaining = (n : Int) →
        (∀ k : Nat, k < n →
          hasActiveSession
            (requestSuccessIter ⟨cfg, some tok, some s⟩ endpoint now body k) now = true
          ∧ (request (T := String)
              (requestSuccessIter ⟨cfg, some tok, some s⟩ endpoint now body k)
              endpoint now (.ok body)).1 = .ok body)
        ∧ hasActiveSession
            (requestSuccessIter ⟨cfg, some tok, some s⟩ endpoint now body n) now
            = false) := by
  have ht : truthyStr (some tok) = true := (truthyStr_some_iff tok).mpr htok
  refine ⟨?_, ?_, ?_, ?_, ?_, ?_⟩
  · intro hpos
    exact request_ok_step cfg tok s endpoint now body htok hexp hpos
  · intro e d
    cases hact : hasActiveSession ⟨cfg, some tok, some s⟩ now <;>
      simp [request, ht, hact, clientFetchResult]
  · intro m
    cases hact : hasActiveSession ⟨cfg, some tok, some s⟩ now <;>
      simp [request, ht, hact, clientFetchResult]
  · intro outcome hle
    have hlt : ¬(0 < s.calls_remaining) := by omega
    simp [request, ht, hasActiveSession, hexp, hlt]
  · intro outcome sess
    simp [request, truthyStr]
  · intro n hn
    constructor
    · intro k hk
      have hiter := requestSuccessIter_state cfg tok endpoint now body htok k s hexp
        (by omega)
      have hposk : 0 < s.calls_remaining - (k : Int) := by omega
      constructor
      · rw [hiter]
        simp [hasActiveSession, hexp, hposk]
      · rw [hiter,
          request_ok_step cfg tok { s with calls_remaining := s.calls_remaining - k }
            endpoint now body htok hexp hposk]
    · have hiter := requestSuccessIter_state cfg tok endpoint now body htok n s hexp
        (by omega)
      rw [hiter]
      have hzero : ¬(0 < s.calls_remaining - (n : Int)) := by omega
      simp [hasActiveSession, hexp, hzero]

/-- Instantiation of `request_call_accounting`: from a session with
2 remaining calls and a future expiry, after exactly 2 successful
`request` calls the session is no longer active. -/
theorem request_call_accounting_witness :
    hasActiveSession
      (requestSuccessIter
        ⟨cfgDefault, some "tok", some ⟨"tok", "ref", some 1000000, 2⟩⟩
        "/x" 0 "b" 2) 0 = false :=
  ((request_call_accounting cfgDefault "tok" ⟨"tok", "ref", some 1000000, 2⟩
      "/x" 0 "b" (by decide) (by decide)).2.2.2.2.2 2 rfl).2

-- ============================================
-- C3: URL targeted by request
-- ============================================

/-- C3 (divergence witness): with the payment-gateway base URL
`https://api.sestralabs.xyz` and the protected-service base URL
configured as `https://api.myservice.com` (the setup of the
repository's "should use serviceBaseUrl when configured" unit test),
a `request` with an active session issues its single HTTP call against
the payment-gateway base URL — not the configured service base URL —
while it does attach the session token as the `X-Session-Token`
header. -/
theorem request_targets_gateway_base_url :
    ((request (T := String)
        ⟨cfgServiceSplit, some "test-token", some ⟨"test-token", "ref-123", some 1, 100⟩⟩
        "/api/protected" 0 (.ok "data")).2.2.map HttpCall.url)
      = ["https://api.sestralabs.xyz/api/protected"]
    ∧ ((request (T := String)
        ⟨cfgServiceSplit, some "test-token", some ⟨"test-token", "ref-123", some 1, 100⟩⟩
        "/api/protected" 0 (.ok "data")).2.2.map HttpCall.headers)
      = [[("Content-Type", "application/json"), ("X-Session-Token", "test-token")]]
    ∧ "https://api.sestralabs.xyz/api/protected" ≠ "https://api.myservice.com/api/protected"
    ∧ cfgServiceSplit.serviceBaseUrl = some "https://api.myservice.com" := by
  exact ⟨rfl, rfl, by decide, rfl⟩

end Sestra
